import Mathlib

/-!
# Verification of the Labs-deploy weather service

Shallow embedding of `main.go` of the `karoline-gaia/Labs-deploy`
repository (the current version of the file: the one whose corrections are
recorded in `CORRECOES.md` — HTTPS + URL-encoding in the weather call,
`Erro interface{}` in the ViaCEP struct, the API-key guard, and the
`273.15` Kelvin offset).

Modelling conventions:
* Go `float64` arithmetic is modelled exactly over `ℚ`; every concrete
  temperature identity claimed by the spec (`K(25) = 298.15`, …) also holds
  bit-for-bit in IEEE float64, so `ℚ` hides no discrepancy here.
* Go strings are Lean `String`s; operations on them are written over
  `List Char` so that all definitions reduce in the kernel.
* A Go `error` is modelled by the message its `Error()` method yields,
  because the handler classifies errors purely by comparing that string.
* The two outbound HTTP calls are modelled by oracle values (`PostalWire`,
  `WeatherWire`) describing what the network returned; the functions also
  report which outbound requests they issued.
-/

/-- A Go `error` value, as far as the program can observe it:
`weatherHandler` only ever inspects `err.Error()`, so the message string
is the whole observable content. -/
structure GoErr where
  message : String
deriving Repr, DecidableEq

/-! ## Temperature conversion (main.go: celsiusToFahrenheit, celsiusToKelvin) -/

/-- `func celsiusToFahrenheit(celsius float64) float64 { return celsius*1.8 + 32 }` -/
def celsiusToFahrenheit (celsius : ℚ) : ℚ := celsius * 1.8 + 32

/-- `func celsiusToKelvin(celsius float64) float64 { return celsius + 273.15 }` -/
def celsiusToKelvin (celsius : ℚ) : ℚ := celsius + 273.15

/-! ## CEP validation (main.go: isValidCEP) -/

/-- `strings.ReplaceAll(cep, "-", "")`: removes every hyphen. -/
def stripHyphens (s : String) : String :=
  String.mk (s.toList.filter (fun c => c ≠ '-'))

/-- Anchored full match of the Go regular expression `^\d{8}$` (RE2):
exactly eight runes, each in `[0-9]`.  Go's `\d` matches only ASCII
decimal digits, which is exactly `Char.isDigit`. -/
def matchEightDigits (s : String) : Bool :=
  s.toList.length == 8 && s.toList.all Char.isDigit

/-- `func isValidCEP(cep string) bool`: remove all hyphens, then test
`^\d{8}$`. -/
def isValidCEP (cep : String) : Bool :=
  matchEightDigits (stripHyphens cep)

/-- Spec-side validator, written from the words of spec §4.1 / claim C2:
"strip a single optional separator character, then accept iff the result
is exactly 8 characters, all decimal digits."  Used only to compare the
claim against `isValidCEP`; it strips at most one hyphen. -/
def stripOneSeparator : List Char → List Char
  | [] => []
  | c :: rest => if c = '-' then rest else c :: stripOneSeparator rest

/-- Spec-side acceptance: strip one optional separator, then require
exactly eight decimal digits. -/
def specValidCEP (s : String) : Bool :=
  let t := stripOneSeparator s.toList
  t.length == 8 && t.all Char.isDigit

/-! ## Postal resolver (main.go: getLocationByCEP, type ViaCEPResponse) -/

/-- A JSON value that the upstream may place in ViaCEP's `erro` field
(the upstream sends `true` or `"true"`; JSON `null` is also possible). -/
inductive ErroVal where
  | vnull
  | vbool (b : Bool)
  | vstr (s : String)
deriving Repr, DecidableEq

/-- A syntactically well-formed ViaCEP JSON body, restricted to the fields
the Go struct reads (`localidade`, `uf`, and the optional untyped `erro`).
`erro = none` means the field is absent from the JSON object. -/
structure ViaCEPBody where
  localidade : String
  uf : String
  erro : Option ErroVal
deriving Repr, DecidableEq

/-- The Go value held by the field `Erro interface{}` after
`json.Decoder.Decode`: `nil` exactly when the field is absent or JSON
`null`; a boolean or a string otherwise.  Decoding into `interface{}`
never fails, whatever the JSON type of `erro` is. -/
def decodeErro : Option ErroVal → Option ErroVal
  | none => none
  | some .vnull => none
  | some v => some v

/-- `type ViaCEPResponse struct { … Localidade, UF string; Erro interface{} }`
after a successful decode. -/
structure ViaCEPResponse where
  localidade : String
  uf : String
  erro : Option ErroVal
deriving Repr, DecidableEq

/-- `json.NewDecoder(resp.Body).Decode(&viaCEP)` on a well-formed body:
total, because `Erro` is `interface{}`. -/
def decodeViaCEP (b : ViaCEPBody) : ViaCEPResponse :=
  { localidade := b.localidade, uf := b.uf, erro := decodeErro b.erro }

/-- The error surface of `encoding/json`'s `Decode` on an undecodable
body: syntax errors (`"invalid character …"`), truncated input
(`"unexpected EOF"`), and type-mismatch errors
(`"json: cannot unmarshal …"`). -/
inductive JsonErr where
  | invalidChar (detail : String)
  | unexpectedEOF
  | typeMismatch (detail : String)
deriving Repr, DecidableEq

/-- The message carried by each `encoding/json` decode error. -/
def JsonErr.msg : JsonErr → String
  | .invalidChar detail => "invalid character " ++ detail
  | .unexpectedEOF => "unexpected EOF"
  | .typeMismatch detail => "json: cannot unmarshal " ++ detail

/-- The body of one HTTP reply from ViaCEP, as the decoder sees it. -/
inductive PostalBody where
  | malformed (e : JsonErr)
  | wellFormed (v : ViaCEPBody)
deriving Repr, DecidableEq

/-- What one `http.Get` to ViaCEP can come back with: a transport error
(`http.Get` returned a `*url.Error`), or a reply with a status code and a
body. -/
inductive PostalWire where
  | transport (inner : String)
  | reply (code : Nat) (body : PostalBody)
deriving Repr, DecidableEq

/-- `(*url.Error).Error()` for a `GET`: `Get "<url>": <inner>`.  This is
the message shape of every error `http.Get` returns. -/
def urlErrorMsg (u inner : String) : String :=
  "Get \"" ++ u ++ "\": " ++ inner

/-- `fmt.Sprintf("https://viacep.com.br/ws/%s/json/", cep)` -/
def viaCepURL (cep : String) : String :=
  "https://viacep.com.br/ws/" ++ cep ++ "/json/"

/-- `func getLocationByCEP(cep string) (string, error)`: strip hyphens,
issue one GET; transport error → returned as-is; non-200 status →
`"CEP not found"`; undecodable body → the decode error as-is; decoded
body with a non-nil `Erro` or an empty `Localidade` → `"CEP not found"`;
otherwise `"<Localidade>,<UF>"`. -/
def getLocationByCEP (cep : String) (wire : PostalWire) : Except GoErr String :=
  match wire with
  | .transport inner => .error ⟨urlErrorMsg (viaCepURL (stripHyphens cep)) inner⟩
  | .reply code body =>
    if code ≠ 200 then .error ⟨"CEP not found"⟩
    else
      match body with
      | .malformed e => .error ⟨e.msg⟩
      | .wellFormed v =>
        if (decodeViaCEP v).erro ≠ none ∨ (decodeViaCEP v).localidade = "" then
          .error ⟨"CEP not found"⟩
        else .ok ((decodeViaCEP v).localidade ++ "," ++ (decodeViaCEP v).uf)

/-! ## Weather resolver (main.go: getTemperature, url.QueryEscape) -/

/-- UTF-8 encoding of one code point, as a list of byte values. -/
def utf8Bytes (c : Char) : List Nat :=
  let n := c.toNat
  if n < 0x80 then [n]
  else if n < 0x800 then [0xC0 + n / 0x40, 0x80 + n % 0x40]
  else if n < 0x10000 then
    [0xE0 + n / 0x1000, 0x80 + n / 0x40 % 0x40, 0x80 + n % 0x40]
  else
    [0xF0 + n / 0x40000, 0x80 + n / 0x1000 % 0x40, 0x80 + n / 0x40 % 0x40,
      0x80 + n % 0x40]

/-- The bytes Go's `url.QueryEscape` leaves unescaped: ASCII
alphanumerics and `-`, `_`, `.`, `~`. -/
def isUnreservedByte (b : Nat) : Bool :=
  (decide (48 ≤ b) && decide (b ≤ 57)) ||
  (decide (65 ≤ b) && decide (b ≤ 90)) ||
  (decide (97 ≤ b) && decide (b ≤ 122)) ||
  b == 45 || b == 95 || b == 46 || b == 126

/-- Uppercase hexadecimal digit, as `url.QueryEscape` emits. -/
def hexDigit (n : Nat) : Char :=
  if n < 10 then Char.ofNat (48 + n) else Char.ofNat (55 + n)

/-- One byte of query-escaped output: unreserved bytes pass through,
space becomes `+`, everything else becomes `%XX`. -/
def escapeQueryByte (b : Nat) : List Char :=
  if isUnreservedByte b then [Char.ofNat b]
  else if b == 32 then ['+']
  else ['%', hexDigit (b / 16), hexDigit (b % 16)]

/-- `url.QueryEscape`: escape the UTF-8 bytes of the string for use in a
query component. -/
def queryEscape (s : String) : String :=
  String.mk ((s.toList.flatMap utf8Bytes).flatMap escapeQueryByte)

/-- The outbound weather URL the code builds:
`fmt.Sprintf("https://api.weatherapi.com/v1/current.json?key=%s&q=%s&aqi=no", apiKey, encodedLocation)`
with `encodedLocation := url.QueryEscape(location)`. -/
def weatherRequestURL (apiKey location : String) : String :=
  "https://api.weatherapi.com/v1/current.json?key=" ++ apiKey ++ "&q=" ++
    queryEscape location ++ "&aqi=no"

/-- The body of one HTTP reply from the weather service. -/
inductive WeatherBody where
  | malformed (e : JsonErr)
  | wellFormed (tempC : ℚ)
deriving Repr, DecidableEq

/-- What one `http.Get` to the weather service can come back with. -/
inductive WeatherWire where
  | transport (inner : String)
  | reply (code : Nat) (body : WeatherBody)
deriving Repr, DecidableEq

/-- `func getTemperature(location string) (float64, error)`.  Besides the
result, the model reports the list of outbound request URLs actually
issued, so that "fails without attempting the call" is expressible.
Missing API key → immediate `"weather API key not configured"` with no
request; otherwise one GET to `weatherRequestURL`; transport error,
non-200 status, and undecodable body each yield a wrapped error;
a decoded body yields `current.temp_c`. -/
def getTemperature (apiKey location : String) (wire : WeatherWire) :
    Except GoErr ℚ × List String :=
  if apiKey = "" then (.error ⟨"weather API key not configured"⟩, [])
  else
    match wire with
    | .transport inner =>
      (.error ⟨"failed to connect to weather API: " ++
          urlErrorMsg (weatherRequestURL apiKey location) inner⟩,
        [weatherRequestURL apiKey location])
    | .reply code body =>
      if code ≠ 200 then
        (.error ⟨"weather API error: status " ++ toString code⟩,
          [weatherRequestURL apiKey location])
      else
        match body with
        | .malformed e =>
          (.error ⟨"failed to parse weather data: " ++ e.msg⟩,
            [weatherRequestURL apiKey location])
        | .wellFormed t => (.ok t, [weatherRequestURL apiKey location])

/-! ## HTTP handlers (main.go: weatherHandler, healthHandler) -/

/-- `unicode.IsSpace`: Unicode white space, i.e. the Latin-1 space
characters and the White_Space property code points. -/
def goIsSpace (c : Char) : Bool :=
  let n := c.toNat
  (decide (9 ≤ n) && decide (n ≤ 13)) || n == 32 || n == 0x85 || n == 0xA0 ||
  n == 0x1680 || (decide (0x2000 ≤ n) && decide (n ≤ 0x200A)) ||
  n == 0x2028 || n == 0x2029 || n == 0x202F || n == 0x205F || n == 0x3000

/-- `strings.TrimSpace`: drop leading and trailing Unicode white space. -/
def trimSpaceGo (s : String) : String :=
  String.mk (((s.toList.dropWhile goIsSpace).reverse.dropWhile goIsSpace).reverse)

/-- `strings.TrimPrefix(s, pre)`: remove `pre` if it is a prefix of `s`,
otherwise return `s` unchanged. -/
def trimPrefixGo (s pre : String) : String :=
  if pre.toList.isPrefixOf s.toList then String.mk (s.toList.drop pre.toList.length)
  else s

/-- The JSON body of a response, by shape: `{"message": s}`,
`{"temp_C": c, "temp_F": f, "temp_K": k}`, or `{"status": "ok"}`. -/
inductive Body where
  | msg (s : String)
  | temps (c f k : ℚ)
  | healthOK
deriving Repr, DecidableEq

/-- One HTTP response as the handlers build it: status code, the
`Content-Type` header the handler explicitly set (if any), the JSON body,
and — for the orchestration claims — which outbound calls the handler
made before responding. -/
structure HandlerResult where
  status : Nat
  contentType : Option String
  body : Body
  postalCalled : Bool
  weatherCalled : Bool
deriving Repr, DecidableEq

/-- `func healthHandler(w, r)`: writes status 200 and
`{"status":"ok"}`; it sets no `Content-Type` header and consults no
upstream service. -/
def healthHandler : HandlerResult :=
  { status := 200, contentType := none, body := .healthOK,
    postalCalled := false, weatherCalled := false }

/-- The CEP extraction of `weatherHandler`:
`strings.TrimSpace(strings.TrimPrefix(r.URL.Path, "/weather/"))`. -/
def extractCEP (path : String) : String :=
  trimSpaceGo (trimPrefixGo path "/weather/")

/-- `func weatherHandler(w, r)`: sets `Content-Type: application/json`,
extracts the CEP from the path (`TrimPrefix` then `TrimSpace`), and runs
the pipeline: invalid format → 422 `"invalid zipcode"`; postal error
`"CEP not found"` → 404 `"can not find zipcode"`; other postal error →
500 `"internal server error"`; weather error → 500
`"error fetching weather data"`; success → 200 with the three
temperatures, Fahrenheit and Kelvin recomputed from the Celsius value. -/
def weatherHandler (path apiKey : String) (postalWire : PostalWire)
    (weatherWire : WeatherWire) : HandlerResult :=
  if !isValidCEP (extractCEP path) then
    { status := 422, contentType := some "application/json",
      body := .msg "invalid zipcode", postalCalled := false, weatherCalled := false }
  else
    match getLocationByCEP (extractCEP path) postalWire with
    | .error e =>
      if e.message = "CEP not found" then
        { status := 404, contentType := some "application/json",
          body := .msg "can not find zipcode", postalCalled := true,
          weatherCalled := false }
      else
        { status := 500, contentType := some "application/json",
          body := .msg "internal server error", postalCalled := true,
          weatherCalled := false }
    | .ok location =>
      match (getTemperature apiKey location weatherWire).1 with
      | .error _ =>
        { status := 500, contentType := some "application/json",
          body := .msg "error fetching weather data", postalCalled := true,
          weatherCalled := true }
      | .ok tempC =>
        { status := 200, contentType := some "application/json",
          body := .temps tempC (celsiusToFahrenheit tempC) (celsiusToKelvin tempC),
          postalCalled := true, weatherCalled := true }

/-! ## Request router (main.go: main; Go net/http ServeMux with the
patterns "/weather/" and "/") -/

/-- Split a character list on `/` (the segments of a path). -/
def splitSlashes : List Char → List (List Char)
  | [] => [[]]
  | c :: rest =>
    if c = '/' then [] :: splitSlashes rest
    else
      match splitSlashes rest with
      | [] => [[c]]
      | s :: ss => (c :: s) :: ss

/-- The segment stack of `path.Clean` on a rooted path: empty and `.`
segments vanish, `..` pops the previous segment (and is dropped at the
root). -/
def cleanSegments (segs : List (List Char)) : List (List Char) :=
  segs.foldl
    (fun acc s =>
      if s = [] ∨ s = ['.'] then acc
      else if s = ['.', '.'] then acc.dropLast
      else acc ++ [s]) []

/-- Rejoin cleaned segments, each preceded by `/`. -/
def joinSegments : List (List Char) → List Char
  | [] => []
  | s :: rest => '/' :: (s ++ joinSegments rest)

/-- `path.Clean` on a rooted path (net/http always roots the path first). -/
def pathCleanRooted (p : String) : String :=
  let st := cleanSegments (splitSlashes p.toList)
  if st = [] then "/" else String.mk (joinSegments st)

/-- Whether a string starts with `/`. -/
def startsWithSlash (s : String) : Bool :=
  match s.toList with
  | c :: _ => c == '/'
  | [] => false

/-- Whether a string ends with `/`. -/
def endsWithSlash (s : String) : Bool :=
  match s.toList.getLast? with
  | some c => c == '/'
  | none => false

/-- net/http's `cleanPath` on an already-rooted path: `path.Clean`, then
restore a trailing slash the cleaning removed. -/
def cleanRooted (p : String) : String :=
  if endsWithSlash p && pathCleanRooted p ≠ "/" then pathCleanRooted p ++ "/"
  else pathCleanRooted p

/-- net/http's `cleanPath`: root the path, `path.Clean` it, and restore a
trailing slash the cleaning removed. -/
def cleanPath (p : String) : String :=
  if p = "" then "/"
  else if startsWithSlash p then cleanRooted p
  else cleanRooted ("/" ++ p)

/-- List-level prefix test on strings (Go's `strings.HasPrefix`, and the
subtree match of `ServeMux` patterns that end in `/`). -/
def hasPrefixGo (s pre : String) : Bool :=
  pre.toList.isPrefixOf s.toList

/-- Where the `ServeMux` sends one request. -/
inductive Routed where
  | redirect (loc : String)
  | weather (path : String)
  | health
  | notFound
deriving Repr, DecidableEq

/-- Pattern matching of the registered mux with patterns `"/weather/"`
and `"/"`: longest pattern wins; both are subtree patterns, and `"/"`
matches every rooted path.  A path that matches neither pattern gets the
`NotFoundHandler` (404). -/
def muxMatch (path : String) : Routed :=
  if hasPrefixGo path "/weather/" then .weather path
  else if hasPrefixGo path "/" then .health
  else .notFound

/-- `ServeMux.Handler` for this program's registrations: for non-CONNECT
requests the path is cleaned and a changed path is answered with a 301
redirect; a request for `"/weather"` (the registered subtree
`"/weather/"` minus its slash, itself unregistered) is answered with a
301 redirect to `"/weather/"`; everything else is dispatched by longest
pattern.  CONNECT requests skip the cleaning. -/
def serveMuxHandler (isConnect : Bool) (path : String) : Routed :=
  if isConnect then
    if path = "/weather" then .redirect "/weather/" else muxMatch path
  else
    let p := cleanPath path
    if p = "/weather" then .redirect "/weather/"
    else if p ≠ path then .redirect p
    else muxMatch p

/-! ## Spec-side outcome mapping (spec section 6 / claim C1) -/

/-- Spec-side: the postal stage's "not found" outcome, from the words of
spec section 4.2 — the service was reachable and either returned a
non-success status, or a well-formed body carrying an `erro` indication
(any non-null value) or an empty city field. -/
def specPostalNotFound : PostalWire → Bool
  | .transport _ => false
  | .reply code body =>
    code != 200 ||
      match body with
      | .malformed _ => false
      | .wellFormed v => (decodeErro v.erro).isSome || v.localidade == ""

/-- Spec-side: the postal stage's "resolution error" outcome — service
unreachable, or a success reply whose body is undecodable. -/
def specPostalError : PostalWire → Bool
  | .transport _ => true
  | .reply code body =>
    code == 200 &&
      match body with
      | .malformed _ => true
      | .wellFormed _ => false

/-- Spec-side response mapping, written from the words of claim C1 /
spec sections 4.5 and 6: a malformed CEP yields 422 `"invalid zipcode"`;
a well-formed but unresolvable CEP yields 404 `"can not find zipcode"`;
a postal-resolution error yields 500 `"internal server error"`; any
weather failure (missing credential, transport, non-success status,
undecodable body) yields 500 `"error fetching weather data"`; success
yields 200 with the three temperatures computed from Celsius by the
spec's formulas.  Processing is terminal at the first failing stage:
no later stage is invoked. -/
def specResponse (path apiKey : String) (postalWire : PostalWire)
    (weatherWire : WeatherWire) : HandlerResult :=
  if !isValidCEP (extractCEP path) then
    { status := 422, contentType := some "application/json",
      body := .msg "invalid zipcode", postalCalled := false, weatherCalled := false }
  else if specPostalNotFound postalWire then
    { status := 404, contentType := some "application/json",
      body := .msg "can not find zipcode", postalCalled := true,
      weatherCalled := false }
  else if specPostalError postalWire then
    { status := 500, contentType := some "application/json",
      body := .msg "internal server error", postalCalled := true,
      weatherCalled := false }
  else if apiKey = "" then
    { status := 500, contentType := some "application/json",
      body := .msg "error fetching weather data", postalCalled := true,
      weatherCalled := true }
  else
    match weatherWire with
    | .transport _ =>
      { status := 500, contentType := some "application/json",
        body := .msg "error fetching weather data", postalCalled := true,
        weatherCalled := true }
    | .reply code body =>
      if code ≠ 200 then
        { status := 500, contentType := some "application/json",
          body := .msg "error fetching weather data", postalCalled := true,
          weatherCalled := true }
      else
        match body with
        | .malformed _ =>
          { status := 500, contentType := some "application/json",
            body := .msg "error fetching weather data", postalCalled := true,
            weatherCalled := true }
        | .wellFormed t =>
          { status := 200, contentType := some "application/json",
            body := .temps t (t * 1.8 + 32) (t + 273.15), postalCalled := true,
            weatherCalled := true }

/-! ### Theorems for C2 and C3 -/

/-- C2 (counterexample): the claim says the validator strips *a single*
optional separator and rejects digits interleaved with more than one
separator; the code removes *all* separators, so `"01-31-0100"` (eight
digits with two hyphens) is accepted by the code while the claim, as
stated, rejects it. -/
theorem c2_counterexample : ¬ (∀ s : String, isValidCEP s = specValidCEP s) :=
  fun h => absurd (h "01-31-0100") (by decide)

/-- C2 (amended): the validator removes *every* separator character and
accepts iff what remains is exactly eight decimal digits; equivalently it
accepts exactly the strings made of eight decimal digits with any number
of hyphens interleaved, and rejects every other string (wrong digit
count, non-digit characters, empty, embedded whitespace). -/
theorem c2_validator_characterisation (s : String) :
    isValidCEP s = true ↔
      (s.toList.filter (fun c => c ≠ '-')).length = 8 ∧
        ∀ c ∈ s.toList, c = '-' ∨ c.isDigit = true := by
  unfold isValidCEP matchEightDigits stripHyphens
  simp only [Bool.and_eq_true, beq_iff_eq, List.all_eq_true]
  constructor
  · rintro ⟨h1, h2⟩
    refine ⟨h1, fun c hc => ?_⟩
    by_cases hd : c = '-'
    · exact Or.inl hd
    · exact Or.inr (h2 c (List.mem_filter.mpr ⟨hc, by simpa using hd⟩))
  · rintro ⟨h1, h2⟩
    refine ⟨h1, fun c hc => ?_⟩
    rcases List.mem_filter.mp hc with ⟨hmem, hne⟩
    rcases h2 c hmem with h | h
    · simp [h] at hne
    · exact h

/-- C3: the Kelvin conversion adds the constant offset `273.15` to the
Celsius input (it is defined additively from Celsius, not derived from
Fahrenheit), and in particular `Kelvin 0 = 273.15`,
`Kelvin (-273.15) = 0`, `Kelvin 25 = 298.15`, exactly. -/
theorem c3_kelvin_additive :
    (∀ c : ℚ, celsiusToKelvin c = c + 273.15) ∧
      celsiusToKelvin 0 = 273.15 ∧
      celsiusToKelvin (-273.15) = 0 ∧
      celsiusToKelvin 25 = 298.15 := by
  refine ⟨fun c => rfl, by norm_num [celsiusToKelvin], by norm_num [celsiusToKelvin],
    by norm_num [celsiusToKelvin]⟩
/-- Two strings differing at their first character differ. -/
theorem string_head_ne (c d : Char) (h : c ≠ d) (l r : List Char) :
    (⟨c :: l⟩ : String) ≠ ⟨d :: r⟩ := by
  intro e
  injection e with e2
  injection e2 with e3 _
  exact h e3

/-- `(*url.Error).Error()` never reads `"CEP not found"`: it starts with
`Get "`. -/
theorem urlErrorMsg_ne_notfound (u i : String) :
    urlErrorMsg u i ≠ "CEP not found" := by
  obtain ⟨ud⟩ := u; obtain ⟨id⟩ := i
  exact string_head_ne 'G' 'C' (by decide) _ _

/-- No `encoding/json` decode error message reads `"CEP not found"`. -/
theorem jsonErrMsg_ne_notfound (e : JsonErr) : e.msg ≠ "CEP not found" := by
  cases e with
  | invalidChar d =>
    obtain ⟨dd⟩ := d
    exact string_head_ne 'i' 'C' (by decide) _ _
  | unexpectedEOF => decide
  | typeMismatch d =>
    obtain ⟨dd⟩ := d
    exact string_head_ne 'j' 'C' (by decide) _ _

/-- Stage lemma: the handler's response agrees with the spec's outcome
mapping on every input. -/
theorem weatherHandler_eq_specResponse (path apiKey : String)
    (pW : PostalWire) (wW : WeatherWire) :
    weatherHandler path apiKey pW wW = specResponse path apiKey pW wW := by
  unfold weatherHandler specResponse
  cases hv : isValidCEP (extractCEP path)
  · simp [hv]
  · simp only [hv, Bool.not_true, Bool.false_eq_true, if_false]
    cases pW with
    | transport inner =>
      simp only [getLocationByCEP, specPostalNotFound, specPostalError,
        if_neg (urlErrorMsg_ne_notfound _ _)]
      rfl
    | reply code body =>
      by_cases hc : code = 200
      · subst hc
        cases body with
        | malformed e =>
          simp only [getLocationByCEP, specPostalNotFound, specPostalError,
            ne_eq, not_true_eq_false, if_false, if_neg (jsonErrMsg_ne_notfound e)]
          rfl
        | wellFormed v =>
          simp only [getLocationByCEP, specPostalNotFound, specPostalError,
            decodeViaCEP, ne_eq, not_true_eq_false, if_false]
          by_cases herr : ¬ decodeErro v.erro = none ∨ v.localidade = ""
          · rw [if_pos herr]
            have hb : ((decodeErro v.erro).isSome || v.localidade == "") = true := by
              rcases herr with h | h
              · simp [Option.isSome_iff_ne_none, h]
              · simp [h]
            simp [hb]
          · rw [if_neg herr]
            push_neg at herr
            obtain ⟨h1, h2⟩ := herr
            have hb : ((decodeErro v.erro).isSome || v.localidade == "") = false := by
              simp [Option.isSome_iff_ne_none, h1, h2]
            simp only [hb, Bool.false_eq_true, if_false]
            by_cases hk : apiKey = ""
            · simp [getTemperature, hk]
            · simp only [getTemperature, if_neg hk]
              cases wW with
              | transport inner => simp
              | reply wcode wbody =>
                by_cases hwc : wcode = 200
                · subst hwc
                  cases wbody with
                  | malformed e => simp
                  | wellFormed t => simp [celsiusToFahrenheit, celsiusToKelvin]
                · simp [hwc]
      · have hb : (code != 200) = true := by simpa using hc
        simp [getLocationByCEP, if_pos hc, specPostalNotFound, specPostalError, hb, hc]

/-! ## Helper lemmas for the remaining claims -/

theorem toNat_ofNat_valid {n : Nat} (h : n < 0xd800) : (Char.ofNat n).toNat = n := by
  unfold Char.ofNat
  rw [dif_pos (Or.inl h)]
  rfl

theorem char_toNat_lt_uni (c : Char) : c.toNat < 1114112 := by
  rcases c.valid with h | ⟨_, h⟩
  · exact Nat.lt_trans h (by norm_num)
  · exact h

theorem utf8Bytes_lt_256 (c : Char) : ∀ b ∈ utf8Bytes c, b < 256 := by
  intro b hb
  have hc := char_toNat_lt_uni c
  simp only [utf8Bytes] at hb
  split at hb
  · simp at hb; omega
  · split at hb
    · simp at hb; rcases hb with h | h <;> omega
    · split at hb
      · simp at hb; rcases hb with h | h | h <;> omega
      · simp at hb; rcases hb with h | h | h | h <;> omega

theorem hexDigit_safe (n : Nat) (h : n < 16) :
    (hexDigit n).toNat ≠ 44 ∧ (hexDigit n).toNat < 128 := by
  unfold hexDigit
  split
  · rw [toNat_ofNat_valid (by omega)]; omega
  · rw [toNat_ofNat_valid (by omega)]; omega

theorem escapeQueryByte_safe (b : Nat) (hb : b < 256) :
    ∀ c ∈ escapeQueryByte b, c.toNat ≠ 44 ∧ c.toNat < 128 := by
  intro c hc
  unfold escapeQueryByte at hc
  split at hc
  · rename_i h
    have hrange : ((((((48 ≤ b ∧ b ≤ 57) ∨ (65 ≤ b ∧ b ≤ 90)) ∨ (97 ≤ b ∧ b ≤ 122)) ∨
        b = 45) ∨ b = 95) ∨ b = 46) ∨ b = 126 := by
      simpa [isUnreservedByte, Bool.or_eq_true, Bool.and_eq_true,
        decide_eq_true_iff, beq_iff_eq] using h
    simp at hc
    subst hc
    rw [toNat_ofNat_valid (by omega)]
    omega
  · split at hc
    · simp at hc; subst hc; decide
    · simp at hc
      rcases hc with h | h | h
      · subst h; decide
      · subst h; exact hexDigit_safe _ (by omega)
      · subst h; exact hexDigit_safe _ (by omega)

theorem queryEscape_safe (s : String) :
    ∀ c ∈ (queryEscape s).toList, c ≠ ',' ∧ c.toNat < 128 := by
  intro c hc
  unfold queryEscape at hc
  have hc2 : c ∈ (s.toList.flatMap utf8Bytes).flatMap escapeQueryByte := hc
  rw [List.mem_flatMap] at hc2
  obtain ⟨b, hb, hcb⟩ := hc2
  rw [List.mem_flatMap] at hb
  obtain ⟨ch, _, hbch⟩ := hb
  have hlt := utf8Bytes_lt_256 ch b hbch
  obtain ⟨h44, h128⟩ := escapeQueryByte_safe b hlt c hcb
  refine ⟨fun he => h44 ?_, h128⟩
  subst he; rfl

theorem startsWithSlash_mk_cons (c : Char) (l : List Char) :
    startsWithSlash ⟨c :: l⟩ = (c == '/') := rfl

theorem startsWithSlash_append (a b : String) (h : startsWithSlash a = true) :
    startsWithSlash (a ++ b) = true := by
  obtain ⟨ad⟩ := a
  obtain ⟨bd⟩ := b
  cases ad with
  | nil => simp [startsWithSlash] at h
  | cons c t =>
    rw [startsWithSlash_mk_cons] at h
    show startsWithSlash ⟨c :: (t ++ bd)⟩ = true
    rw [startsWithSlash_mk_cons]
    exact h

theorem startsWithSlash_pathCleanRooted (p : String) :
    startsWithSlash (pathCleanRooted p) = true := by
  unfold pathCleanRooted
  cases hst : cleanSegments (splitSlashes p.toList) with
  | nil => simp only [hst, ite_true]; rfl
  | cons s rest =>
    simp only [hst, List.cons_ne_self, if_neg, reduceCtorEq, ite_false]
    show startsWithSlash ⟨'/' :: (s ++ joinSegments rest)⟩ = true
    rw [startsWithSlash_mk_cons]
    rfl

theorem startsWithSlash_cleanRooted (p : String) :
    startsWithSlash (cleanRooted p) = true := by
  unfold cleanRooted
  split
  · exact startsWithSlash_append _ _ (startsWithSlash_pathCleanRooted _)
  · exact startsWithSlash_pathCleanRooted _

theorem startsWithSlash_cleanPath (p : String) :
    startsWithSlash (cleanPath p) = true := by
  unfold cleanPath
  split
  · rfl
  · split
    · exact startsWithSlash_cleanRooted _
    · exact startsWithSlash_cleanRooted _

theorem hasPrefixGo_slash (s : String) (h : startsWithSlash s = true) :
    hasPrefixGo s "/" = true := by
  obtain ⟨sd⟩ := s
  cases sd with
  | nil => simp [startsWithSlash] at h
  | cons c t =>
    rw [startsWithSlash_mk_cons] at h
    have hc : c = '/' := eq_of_beq h
    subst hc
    simp [hasPrefixGo, List.isPrefixOf]

theorem serveMux_ne_notFound (path : String) :
    serveMuxHandler false path ≠ .notFound := by
  unfold serveMuxHandler
  simp only [Bool.false_eq_true, if_false]
  split
  · intro h; cases h
  · split
    · intro h; cases h
    · unfold muxMatch
      split
      · intro h; cases h
      · rw [if_pos (hasPrefixGo_slash _ (startsWithSlash_cleanPath path))]
        intro h; cases h

/-! ## Claim theorems -/

/-- C1: for every request to `GET /weather/{cep}`, the handler's outcome
maps to exactly one status code and body as the spec's table states —
422 `"invalid zipcode"` for a malformed CEP, 404 `"can not find zipcode"`
for a well-formed but unresolvable CEP, 500 `"internal server error"`
for a postal-resolution error, 500 `"error fetching weather data"` for a
weather failure, and 200 with the three temperatures on success — and
processing is terminal at the first failing stage (the call flags of the
spec-side mapping record which stages ran). -/
theorem c1_outcome_mapping (path apiKey : String) (pW : PostalWire)
    (wW : WeatherWire) :
    weatherHandler path apiKey pW wW = specResponse path apiKey pW wW :=
  weatherHandler_eq_specResponse path apiKey pW wW

/-- C4: the postal resolver treats an `erro` indication in either
representation (boolean or string), or an empty city field in an
otherwise well-formed response, as "not found" — decoding never fails on
such bodies — so those responses yield the 404 `"can not find zipcode"`
outcome, not a server-side failure. -/
theorem c4_notfound_in_either_representation (path apiKey : String)
    (v : ViaCEPBody) (wW : WeatherWire)
    (hv : isValidCEP (extractCEP path) = true)
    (h : (∃ b, v.erro = some (.vbool b)) ∨ (∃ s, v.erro = some (.vstr s)) ∨
      v.localidade = "") :
    (∀ cep, getLocationByCEP cep (.reply 200 (.wellFormed v)) =
      .error ⟨"CEP not found"⟩) ∧
    weatherHandler path apiKey (.reply 200 (.wellFormed v)) wW =
      { status := 404, contentType := some "application/json",
        body := .msg "can not find zipcode", postalCalled := true,
        weatherCalled := false } := by
  have hcase : ¬ decodeErro v.erro = none ∨ v.localidade = "" := by
    rcases h with ⟨b, hb⟩ | ⟨s, hs⟩ | hloc
    · left; rw [hb]; cases b <;> simp [decodeErro]
    · left; rw [hs]; simp [decodeErro]
    · right; exact hloc
  have hb : ((decodeErro v.erro).isSome || v.localidade == "") = true := by
    rcases hcase with hc | hc
    · simp [Option.isSome_iff_ne_none, hc]
    · simp [hc]
  constructor
  · intro cep
    rcases hcase with hc | hc
    · simp [getLocationByCEP, decodeViaCEP, hc]
    · simp [getLocationByCEP, decodeViaCEP, hc]
  · rw [weatherHandler_eq_specResponse]
    unfold specResponse
    have hnb : specPostalNotFound (.reply 200 (.wellFormed v)) = true := by
      simp [specPostalNotFound, hb]
    simp [hv, hnb]

/-- C4 witness: a concrete body with a boolean `erro` flag yields the 404
response. -/
theorem c4_witness :
    weatherHandler "/weather/01310100" "KEY"
      (.reply 200 (.wellFormed ⟨"", "", some (.vbool true)⟩))
      (.reply 200 (.wellFormed 0)) =
    { status := 404, contentType := some "application/json",
      body := .msg "can not find zipcode", postalCalled := true,
      weatherCalled := false } :=
  (c4_notfound_in_either_representation "/weather/01310100" "KEY" _ _
    (by decide) (Or.inl ⟨true, rfl⟩)).2

/-- C5: with a well-formed CEP, a reachable address-lookup service
returning a non-success status is surfaced as 404 `"can not find
zipcode"`, while an unreachable service or an undecodable response body
is surfaced as a 500 `"internal server error"`, never as "not found". -/
theorem c5_postal_failure_classification (path apiKey : String)
    (wW : WeatherWire)
    (hv : isValidCEP (extractCEP path) = true) :
    (∀ code body, code ≠ 200 →
      weatherHandler path apiKey (.reply code body) wW =
        { status := 404, contentType := some "application/json",
          body := .msg "can not find zipcode", postalCalled := true,
          weatherCalled := false }) ∧
    (∀ inner,
      weatherHandler path apiKey (.transport inner) wW =
        { status := 500, contentType := some "application/json",
          body := .msg "internal server error", postalCalled := true,
          weatherCalled := false }) ∧
    (∀ e : JsonErr,
      weatherHandler path apiKey (.reply 200 (.malformed e)) wW =
        { status := 500, contentType := some "application/json",
          body := .msg "internal server error", postalCalled := true,
          weatherCalled := false }) := by
  refine ⟨?_, ?_, ?_⟩
  · intro code body hc
    rw [weatherHandler_eq_specResponse]
    unfold specResponse
    have h1 : specPostalNotFound (.reply code body) = true := by
      have : (code != 200) = true := by simpa [bne_iff_ne] using hc
      simp [specPostalNotFound, this]
    simp [hv, h1]
  · intro inner
    rw [weatherHandler_eq_specResponse]
    unfold specResponse
    simp [hv, specPostalNotFound, specPostalError]
  · intro e
    rw [weatherHandler_eq_specResponse]
    unfold specResponse
    simp [hv, specPostalNotFound, specPostalError]

/-- C5 witness: a 500 reply from the address service yields 404, and an
unreachable address service yields 500 `"internal server error"`. -/
theorem c5_witness :
    weatherHandler "/weather/01310100" "KEY"
      (.reply 500 (.wellFormed ⟨"Sao Paulo", "SP", none⟩))
      (.reply 200 (.wellFormed 0)) =
    { status := 404, contentType := some "application/json",
      body := .msg "can not find zipcode", postalCalled := true,
      weatherCalled := false } ∧
    weatherHandler "/weather/01310100" "KEY" (.transport "dial tcp: i/o timeout")
      (.reply 200 (.wellFormed 0)) =
    { status := 500, contentType := some "application/json",
      body := .msg "internal server error", postalCalled := true,
      weatherCalled := false } := by
  constructor
  · exact (c5_postal_failure_classification "/weather/01310100" "KEY" _
      (by decide)).1 500 _ (by decide)
  · exact (c5_postal_failure_classification "/weather/01310100" "KEY" _
      (by decide)).2.1 "dial tcp: i/o timeout"

/-- C6: with no configured weather credential, the weather resolver fails
immediately with the "not configured" error and issues no outbound
request (its request list is empty), for every location and whatever the
network would have answered. -/
theorem c6_missing_credential_no_call (location : String) (wire : WeatherWire) :
    getTemperature "" location wire =
      (.error ⟨"weather API key not configured"⟩, []) :=
  rfl

/-- C7: whenever the handler's body is the success shape, the Fahrenheit
and Kelvin fields are exactly the spec's formulas applied to the Celsius
field carried in the same body. -/
theorem c7_success_temperatures_consistent (path apiKey : String)
    (pW : PostalWire) (wW : WeatherWire) (c f k : ℚ)
    (h : (weatherHandler path apiKey pW wW).body = .temps c f k) :
    f = c * 1.8 + 32 ∧ k = c + 273.15 := by
  unfold weatherHandler at h
  split at h
  · simp at h
  · split at h
    · split at h <;> simp at h
    · split at h
      · simp at h
      · simp only [Body.temps.injEq] at h
        obtain ⟨h1, h2, h3⟩ := h
        subst h1
        exact ⟨h2.symm, h3.symm⟩

/-- C7 witness: a concrete success run with 25 °C. -/
theorem c7_witness : (77 : ℚ) = 25 * 1.8 + 32 ∧ (298.15 : ℚ) = 25 + 273.15 := by
  refine c7_success_temperatures_consistent "/weather/01310100" "KEY"
    (.reply 200 (.wellFormed ⟨"Sao Paulo", "SP", none⟩))
    (.reply 200 (.wellFormed 25)) 25 77 298.15 ?_
  have h1 : celsiusToFahrenheit 25 = 77 := by norm_num [celsiusToFahrenheit]
  have h2 : celsiusToKelvin 25 = 298.15 := by norm_num [celsiusToKelvin]
  calc (weatherHandler "/weather/01310100" "KEY"
        (.reply 200 (.wellFormed ⟨"Sao Paulo", "SP", none⟩))
        (.reply 200 (.wellFormed 25))).body
      = Body.temps 25 (celsiusToFahrenheit 25) (celsiusToKelvin 25) := rfl
    _ = Body.temps 25 77 298.15 := by rw [h1, h2]

/-- C8: with a configured credential the weather resolver issues exactly
one request, to the URL built with the percent-encoded location; the
encoded location is pure ASCII and contains no comma, so non-ASCII
characters and the comma of `"City,ST"` are escaped. -/
theorem c8_weather_url_percent_encoded (apiKey location : String)
    (wire : WeatherWire) (hk : apiKey ≠ "") :
    (getTemperature apiKey location wire).2 =
      [weatherRequestURL apiKey location] ∧
    weatherRequestURL apiKey location =
      "https://api.weatherapi.com/v1/current.json?key=" ++ apiKey ++ "&q=" ++
        queryEscape location ++ "&aqi=no" ∧
    ∀ c ∈ (queryEscape location).toList, c ≠ ',' ∧ c.toNat < 128 := by
  refine ⟨?_, rfl, queryEscape_safe location⟩
  unfold getTemperature
  rw [if_neg hk]
  cases wire with
  | transport inner => rfl
  | reply code body =>
    by_cases hc : code = 200
    · subst hc
      cases body <;> rfl
    · simp [hc]

/-- C8 witness: the concrete location `"São Paulo,SP"` is requested once
at its query-escaped URL, and its escape is `"S%C3%A3o+Paulo%2CSP"`. -/
theorem c8_witness :
    (getTemperature "KEY" "São Paulo,SP" (.reply 200 (.wellFormed 25))).2 =
      [weatherRequestURL "KEY" "São Paulo,SP"] ∧
    queryEscape "São Paulo,SP" = "S%C3%A3o+Paulo%2CSP" :=
  ⟨(c8_weather_url_percent_encoded "KEY" "São Paulo,SP"
      (.reply 200 (.wellFormed 25)) (by decide)).1, by decide⟩

/-- C9 (counterexample): the health-check response does not carry the
`Content-Type: application/json` header — the handler sets no content
type at all — refuting the claim that every response of the service
carries it. -/
theorem c9_health_counterexample :
    healthHandler.contentType ≠ some "application/json" ∧
      healthHandler.status = 200 ∧ healthHandler.body = .healthOK := by
  decide

/-- C9 (amended): every response of `weatherHandler` — success and every
error body — carries `Content-Type: application/json`; the health
handler's response is JSON-encoded but sets no `Content-Type` header
(Go's content sniffing then labels it `text/plain`). -/
theorem c9_content_type_header (path apiKey : String) (pW : PostalWire)
    (wW : WeatherWire) :
    (weatherHandler path apiKey pW wW).contentType = some "application/json" ∧
    healthHandler.contentType = none := by
  refine ⟨?_, rfl⟩
  unfold weatherHandler
  split
  · rfl
  · split
    · split <;> rfl
    · split <;> rfl

/-- C10 (counterexample): the request path `"/weather"` does not fall
under `/weather/`, yet the mux answers it with a 301 redirect to
`"/weather/"`, not with the health handler's 200 — refuting the claim
that every such path is answered by the health handler. -/
theorem c10_slash_redirect_counterexample :
    serveMuxHandler false "/weather" = .redirect "/weather/" ∧
      Routed.redirect "/weather/" ≠ Routed.health := by
  exact ⟨by decide, by decide⟩

/-- C10 (amended): for non-CONNECT requests of any method, every path
that is already in canonical (cleaned) form, does not fall under
`/weather/`, and is not exactly `/weather` is dispatched to the health
handler, whose response is 200 with body `{"status":"ok"}` independent
of any upstream state; the mux never yields its 404 not-found handler
(`/weather` itself and non-canonical paths get 301 redirects). -/
theorem c10_default_route_health (path : String) :
    (cleanPath path = path → hasPrefixGo path "/weather/" = false →
      path ≠ "/weather" → serveMuxHandler false path = .health) ∧
    serveMuxHandler false path ≠ .notFound ∧
    healthHandler.status = 200 ∧ healthHandler.body = .healthOK := by
  refine ⟨?_, serveMux_ne_notFound path, rfl, rfl⟩
  intro hclean hw hne
  unfold serveMuxHandler
  simp only [Bool.false_eq_true, if_false]
  rw [hclean]
  rw [if_neg hne]
  rw [if_neg (by simp)]
  have hs : startsWithSlash path = true := by
    rw [← hclean]; exact startsWithSlash_cleanPath path
  unfold muxMatch
  simp [hw, hasPrefixGo_slash path hs]

/-- C10 witness: the concrete canonical path `"/healthz"` is routed to
the health handler and is not a 404. -/
theorem c10_witness :
    serveMuxHandler false "/healthz" = .health ∧
      serveMuxHandler false "/healthz" ≠ .notFound :=
  ⟨(c10_default_route_health "/healthz").1 (by decide) (by decide) (by decide),
   (c10_default_route_health "/healthz").2.1⟩

/-- C2 witness: a CEP with the conventional single hyphen is accepted via
the characterisation. -/
theorem c2_characterisation_witness : isValidCEP "01310-100" = true :=
  (c2_validator_characterisation "01310-100").mpr ⟨by decide, by decide⟩
